import Mathlib

/-!
Verification of the 0pa operation-construction core.

This file gives a shallow embedding of the runtime behaviour of
`src/index.ts` (the canonical `Opa` builder chain) and `src/context.ts`
(the `withContext` variant), and proves the behavioural claims about them.

Modelling conventions:
* JavaScript asynchrony collapses: a value that may or may not be a
  `Promise` is a `PromiseOr`, and `await` is `PromiseOr.resolve`.
  `async` functions that can `throw` are modelled as `Except JsError`.
* A JS `undefined` slot (an optional constructor parameter, or an object
  key that is absent) is modelled as `Option.none`.
* `JSON.stringify` is modelled faithfully on the issue lists that the
  code serializes (issues are `\x7bmessage: string\x7d` records, the typing used
  by the repository itself in its `ValidationError` class).
-/

/-- Lowercase hexadecimal digit, as used by JSON.stringify \u escapes. -/
def hexDigitChar (n : Nat) : Char :=
  if n < 10 then Char.ofNat (48 + n) else Char.ofNat (87 + n)

/-- JSON string escaping of one character, per ECMA-404 / JSON.stringify:
quote and backslash are escaped, the named control escapes are used for
backspace, form feed, newline, carriage return and tab, all other control
characters become a lowercase \u00xx escape, and everything else is kept. -/
def escapeChar (c : Char) : String :=
  if c = Char.ofNat 34 then "\\\""
  else if c = Char.ofNat 92 then "\\\\"
  else if c = Char.ofNat 8 then "\\b"
  else if c = Char.ofNat 12 then "\\f"
  else if c = Char.ofNat 10 then "\\n"
  else if c = Char.ofNat 13 then "\\r"
  else if c = Char.ofNat 9 then "\\t"
  else if c.toNat < 32 then
    "\\u00" ++ String.singleton (hexDigitChar (c.toNat / 16))
      ++ String.singleton (hexDigitChar (c.toNat % 16))
  else String.singleton c

/-- JSON serialization of a string: quotes around the escaped characters. -/
def stringifyString (s : String) : String :=
  "\"" ++ String.join (s.data.map escapeChar) ++ "\""

/-- One validation issue descriptor.  The repository types adapter issues as
`ReadonlyArray<\x7bmessage: string\x7d>` (the `ValidationError` class), so an issue
is modelled as its message. -/
structure Issue where
  message : String
deriving DecidableEq, Repr

/-- Model of `JSON.stringify(issues, null, 2)`: a 2-space-indented JSON
array of one-key objects, exactly the string built by
`src/index.ts` line 61.  Every issue is serialized, in list order. -/
def stringifyIssuesPretty (issues : List Issue) : String :=
  match issues with
  | [] => "[]"
  | _ =>
    "[\n"
      ++ String.intercalate ",\n"
          (issues.map (fun i =>
            "  \x7b\n    \"message\": " ++ stringifyString i.message ++ "\n  \x7d"))
      ++ "\n]"

/-- Model of the compact `JSON.stringify(issues)` used by `src/context.ts`. -/
def stringifyIssuesCompact (issues : List Issue) : String :=
  "["
    ++ String.intercalate ","
        (issues.map (fun i =>
          "\x7b\"message\":" ++ stringifyString i.message ++ "\x7d"))
    ++ "]"

/-- The failures that can surface from this library at runtime:
a plain JS `Error` (identified by its message), the `ValidationError`
class of the variant implementation (message plus a structured issue
list), the `TypeError` JS raises on reading a property of `undefined`,
and arbitrary caller-raised failures (`custom`). -/
inductive JsError where
  | plainError (message : String)
  | validationError (message : String) (issues : List Issue)
  | typeError (message : String)
  | custom (tag : String)
deriving DecidableEq, Repr

/-- A value that is either immediately available or a `Promise` of one
(the standard-schema contract allows both). -/
inductive PromiseOr (α : Type) where
  | sync (a : α)
  | async (a : α)
deriving DecidableEq, Repr

/-- Awaiting: `if (result instanceof Promise) result = await result`. -/
def PromiseOr.resolve {α : Type} : PromiseOr α → α
  | .sync a => a
  | .async a => a

/-- A standard-schema validation result: exactly one of a validated value
or an issue list is present. -/
inductive StdResult (A : Type) where
  | success (value : A)
  | failed (issues : List Issue)
deriving DecidableEq, Repr

/-- The object stored under a schema's `~standard` key: its `validate`
capability, possibly asynchronous. -/
structure StdProps (I A : Type) where
  validate : I → PromiseOr (StdResult A)

/-- A schema object.  `standard` models its `~standard` property;
`none` models a schema object that lacks the property. -/
structure Schema (I A : Type) where
  standard : Option (StdProps I A)

/-- Embedding of `validateInput` from `src/index.ts` lines 53-65:
read `schema['~standard'].validate`, call it on the input, await if it is
a promise; if the result has issues, throw
`new Error(JSON.stringify(result.issues, null, 2))`; else return the
value.  Reading `.validate` off a schema without `~standard` raises the
JS `TypeError`. -/
def validateInput {I A : Type} (schema : Schema I A) (input : I) : Except JsError A :=
  match schema.standard with
  | none =>
    .error (.typeError "Cannot read properties of undefined (reading 'validate')")
  | some std =>
    match (std.validate input).resolve with
    | .failed issues => .error (.plainError (stringifyIssuesPretty issues))
    | .success v => .ok v

/-- The argument object a handler receives.  `ctx = none` models the
object literal without a `ctx` key (`\x7b input \x7d`); `ctx = some c` models
`\x7b input, ctx: c \x7d`. -/
structure HandlerArgs (A C : Type) where
  input : A
  ctx : Option C
deriving DecidableEq, Repr

/-- Embedding of class `OperationImpl` (src/index.ts lines 68-94):
its three constructor-initialized private fields. -/
structure OperationImpl (I A O C : Type) where
  _schema : Schema I A
  _handler : HandlerArgs A C → Except JsError O
  _context : Option C

/-- Method `OperationImpl.execute` (lines 75-85): validate the input with
`validateInput` (errors propagate), then call the handler with
`\x7b input: validatedInput, ctx: this._context \x7d` when `this._context !==
undefined`, else with `\x7b input: validatedInput \x7d`. -/
def OperationImpl.execute {I A O C : Type} (opn : OperationImpl I A O C)
    (input : I) : Except JsError O :=
  match validateInput opn._schema input with
  | .error e => .error e
  | .ok validatedInput =>
    if opn._context.isSome then
      opn._handler ⟨validatedInput, opn._context⟩
    else
      opn._handler ⟨validatedInput, none⟩

/-- Method `OperationImpl.handler` (lines 87-89): forward the caller's
args to the underlying handler, untouched. -/
def OperationImpl.handler {I A O C : Type} (opn : OperationImpl I A O C)
    (args : HandlerArgs A C) : Except JsError O :=
  opn._handler args

/-- Getter `OperationImpl.schema` (lines 91-93): return `this._schema`. -/
def OperationImpl.schema {I A O C : Type} (opn : OperationImpl I A O C) :
    Schema I A :=
  opn._schema

/-- Embedding of class `OperationWithInputImpl` (lines 96-109). -/
structure OperationWithInputImpl (I A C : Type) where
  _schema : Schema I A
  _context : Option C

/-- Method `OperationWithInputImpl.handler`: build the terminal
`OperationImpl` from the stored schema, the given function and the stored
context. -/
def OperationWithInputImpl.handler {I A O C : Type}
    (b : OperationWithInputImpl I A C)
    (fn : HandlerArgs A C → Except JsError O) : OperationImpl I A O C :=
  ⟨b._schema, fn, b._context⟩

/-- Embedding of class `OperationBuilderImpl` (lines 111-119). -/
structure OperationBuilderImpl (C : Type) where
  _context : Option C

/-- Method `OperationBuilderImpl.input`: a new `OperationWithInputImpl`
holding the given schema and the stored context. -/
def OperationBuilderImpl.input {I A C : Type} (b : OperationBuilderImpl C)
    (schema : Schema I A) : OperationWithInputImpl I A C :=
  ⟨schema, b._context⟩

/-- Embedding of class `OpaBuilderImpl` (lines 121-127). -/
structure OpaBuilderImpl (C : Type) where
  _context : Option C

/-- Getter `OpaBuilderImpl.operation`: a fresh `OperationBuilderImpl`
carrying the stored context. -/
def OpaBuilderImpl.operation {C : Type} (b : OpaBuilderImpl C) :
    OperationBuilderImpl C :=
  ⟨b._context⟩

/-- Embedding of class `OpaContextBuilderImpl` (lines 129-135): it stores
the bound context (a required constructor argument). -/
structure OpaContextBuilderImpl (C : Type) where
  _context : C

/-- Method `OpaContextBuilderImpl.create`: a fresh `OpaBuilderImpl`
holding the same bound context (defined, hence `some`). -/
def OpaContextBuilderImpl.create {C : Type} (b : OpaContextBuilderImpl C) :
    OpaBuilderImpl C :=
  ⟨some b._context⟩

namespace Opa

/-- Entry point `Opa.create()` (src/index.ts line 140): a builder with no
context bound (the optional constructor parameter left `undefined`).
The context type is explicit since Lean has no JS-style untyped slot. -/
def create (C : Type) : OpaBuilderImpl C :=
  ⟨none⟩

/-- Entry point `Opa.context(ctx)` (line 144): a context handle storing
the given context value. -/
def context {C : Type} (c : C) : OpaContextBuilderImpl C :=
  ⟨c⟩

end Opa

/-- Module-level `export const op = new OperationBuilderImpl()`
(line 158): the standalone context-free builder. -/
def op (C : Type) : OperationBuilderImpl C :=
  ⟨none⟩

/-- Kind test used to state claims about error taxonomy: whether a result
is a failure of the `ValidationError` class kind. -/
def isValidationErrorKind {O : Type} : Except JsError O → Bool
  | .error (.validationError _ _) => true
  | _ => false

/-!
Embedding of `src/context.ts` (`withContext`).

The contextual operations manipulate plain JS values: the provided
context is an arbitrary JS value (an object reference in intended use),
and the branch `additionalCtx ? Object.assign(\x7b\x7d, providedContext,
additionalCtx) : providedContext` tests JS truthiness.  To state
reference-versus-copy facts, objects live in an explicit heap of
property lists and object values are references into it.
-/

/-- A JS value as far as the contextual-operation code can observe it:
`undefined`, `null`, a boolean, a number (integral model), a string, or
a reference to a heap object. -/
inductive CJSVal where
  | undef
  | nullV
  | boolV (b : Bool)
  | numV (n : Int)
  | strV (s : String)
  | objRef (r : Nat)
deriving DecidableEq, Repr

/-- JS truthiness of a `CJSVal`. -/
def CJSVal.truthy : CJSVal → Bool
  | .undef => false
  | .nullV => false
  | .boolV b => b
  | .numV n => n != 0
  | .strV s => !s.isEmpty
  | .objRef _ => true

/-- A JS object: its own enumerable properties in insertion order. -/
abbrev JsObj : Type := List (String × CJSVal)

/-- The heap of allocated objects; reference `r` denotes `objs[r]`, and
`objs.length` is the next fresh reference. -/
structure JsHeap where
  objs : List JsObj
deriving DecidableEq, Repr

/-- Dereference a heap object. -/
def JsHeap.get (h : JsHeap) (r : Nat) : JsObj :=
  h.objs.getD r []

/-- Allocate a fresh object, returning the new heap and its reference. -/
def JsHeap.alloc (h : JsHeap) (o : JsObj) : JsHeap × Nat :=
  (⟨h.objs ++ [o]⟩, h.objs.length)

/-- The own enumerable properties `Object.assign` reads off a source
value: an object contributes its properties, a string contributes its
index-to-character properties, and primitives (including `null` and
`undefined`, which `Object.assign` skips) contribute none. -/
def assignSourceProps (h : JsHeap) : CJSVal → JsObj
  | .objRef r => h.get r
  | .strV s => s.data.enum.map (fun p => (toString p.1, CJSVal.strV (String.singleton p.2)))
  | _ => []

/-- Set one property JS-style: an existing key keeps its position and
gets the new value, a new key is appended. -/
def setProp (o : JsObj) (k : String) (v : CJSVal) : JsObj :=
  match o with
  | [] => [(k, v)]
  | p :: rest => if p.1 = k then (k, v) :: rest else p :: setProp rest k v

/-- Copy every property of `src` into `o`, in order (later keys of `src`
override earlier ones and keys already in `o`). -/
def assignInto (o : JsObj) (src : JsObj) : JsObj :=
  src.foldl (fun acc p => setProp acc p.1 p.2) o

/-- The object built by `Object.assign(\x7b\x7d, s1, s2)`: a fresh target
receiving the own enumerable properties of `s1` then of `s2`. -/
def objectAssign2 (h : JsHeap) (s1 s2 : CJSVal) : JsObj :=
  assignInto (assignInto [] (assignSourceProps h s1)) (assignSourceProps h s2)

/-- Embedding of the merged-context expression of `src/context.ts`
lines 94-96 and 103-105: `additionalCtx ? Object.assign(\x7b\x7d,
providedContext, additionalCtx) : providedContext`.  A truthy
`additionalCtx` allocates the fresh merged object; a falsy one yields
the provided context value itself and leaves the heap unchanged. -/
def computeMergedCtx (h : JsHeap) (providedContext additionalCtx : CJSVal) :
    JsHeap × CJSVal :=
  if additionalCtx.truthy then
    let a := h.alloc (objectAssign2 h providedContext additionalCtx)
    (a.1, CJSVal.objRef a.2)
  else
    (h, providedContext)

/-- The params record a `withContext` user handler receives:
`\x7b input, schema, ctx \x7d`. -/
structure CtxParams (I : Type) where
  input : I
  schema : Schema I I
  ctx : CJSVal

/-- Embedding of the `validateInput` closure defined identically inside
both `createContextualOperation` (src/context.ts lines 73-90) and
`createTypedContextualOperation` (lines 115-132): if the schema has a
`~standard` property, validate and await, throwing
`new Error('Validation failed: ' + JSON.stringify(issues))` on issues,
else return the input unchanged.  The promise and non-promise branches
of the source perform the same issue check. -/
def ctxValidateInput {I : Type} (schema : Schema I I) (input : I) :
    Except JsError I :=
  match schema.standard with
  | some std =>
    match (std.validate input).resolve with
    | .failed issues =>
      .error (.plainError ("Validation failed: " ++ stringifyIssuesCompact issues))
    | .success v => .ok v
  | none => .ok input

/-- The `handler` field of the operation returned by
`createContextualOperation` (src/context.ts lines 94-98): compute the
merged context from the provided context and `additionalCtx`, then call
the user handler with `\x7b input, schema, ctx: mergedCtx \x7d`.  The heap is
threaded explicitly because a truthy `additionalCtx` allocates. -/
def ctxOpHandler {I O : Type} (providedContext : CJSVal)
    (userHandler : CtxParams I → Except JsError O) (schema : Schema I I)
    (h : JsHeap) (input : I) (additionalCtx : CJSVal) :
    JsHeap × Except JsError O :=
  let m := computeMergedCtx h providedContext additionalCtx
  (m.1, userHandler ⟨input, schema, m.2⟩)

/-- The `execute` field of the operation returned by
`createContextualOperation` (src/context.ts lines 99-106): validate the
input first (failures propagate), then merge the context exactly as
`handler` does and call the user handler with the validated input. -/
def ctxOpExecute {I O : Type} (providedContext : CJSVal)
    (userHandler : CtxParams I → Except JsError O) (schema : Schema I I)
    (h : JsHeap) (input : I) (additionalCtx : CJSVal) :
    JsHeap × Except JsError O :=
  match ctxValidateInput schema input with
  | .error e => (h, .error e)
  | .ok validatedInput =>
    let m := computeMergedCtx h providedContext additionalCtx
    (m.1, userHandler ⟨validatedInput, schema, m.2⟩)

/-- The `handler` field of the operation returned by
`createTypedContextualOperation` (src/context.ts lines 136-138): pass
the caller's input and ctx straight to the user handler. -/
def typedCtxOpHandler {I O : Type}
    (userHandler : CtxParams I → Except JsError O) (schema : Schema I I)
    (input : I) (ctx : CJSVal) : Except JsError O :=
  userHandler ⟨input, schema, ctx⟩

/-- The `execute` field of the operation returned by
`createTypedContextualOperation` (src/context.ts lines 139-142):
validate, then call the user handler with the validated input and the
caller's ctx. -/
def typedCtxOpExecute {I O : Type}
    (userHandler : CtxParams I → Except JsError O) (schema : Schema I I)
    (input : I) (ctx : CJSVal) : Except JsError O :=
  match ctxValidateInput schema input with
  | .error e => .error e
  | .ok validatedInput => userHandler ⟨validatedInput, schema, ctx⟩

/-!
Helper lemmas and concrete fixtures shared by the claim theorems.
-/

/-- Characterization of `execute` on an operation's three components: the
per-call test `this._context !== undefined` collapses, since the stored
context is immutable, to passing the stored context slot along. -/
theorem OperationImpl.execute_mk {I A O C : Type} (s : Schema I A)
    (f : HandlerArgs A C → Except JsError O) (octx : Option C) (x : I) :
    (OperationImpl.mk s f octx).execute x
      = match validateInput s x with
        | .error e => .error e
        | .ok v => f ⟨v, octx⟩ := by
  cases hv : validateInput s x <;> cases octx <;>
    simp [OperationImpl.execute, hv]

/-- Fixture: a standard-schema adapter on naturals that rejects zero with
one issue (asynchronously, exercising the await path) and otherwise
succeeds synchronously with the successor. -/
def goodStd : StdProps Nat Nat :=
  ⟨fun n => if n = 0 then .async (.failed [⟨"zero"⟩]) else .sync (.success (n + 1))⟩

/-- Fixture: a schema carrying `goodStd` under its `~standard` key. -/
def goodSchema : Schema Nat Nat :=
  ⟨some goodStd⟩

/-- Fixture: an adapter that rejects every input with one issue. -/
def badStd : StdProps Nat Nat :=
  ⟨fun _ => .sync (.failed [⟨"expected string"⟩])⟩

/-- Fixture: a schema carrying `badStd`. -/
def badSchema : Schema Nat Nat :=
  ⟨some badStd⟩

/-- C1: on an Operation built through the canonical Opa builder chain
(`OpaBuilderImpl` is the stage both `Opa.create()` and
`Opa.context(...).create()` produce), `execute(x)` first resolves the
schema's validate — the hypotheses speak of the resolved result, so a
synchronous result and an awaited suspension behave identically — and
invokes the handler, with the validated value, exactly when that result
carried a value; when the result carries issues the handler is never
invoked: the outcome is the same for every handler, and is the
validation failure. -/
theorem c1_validate_before_invoke {I A O C : Type}
    (s : Schema I A) (octx : Option C) (std : StdProps I A)
    (hstd : s.standard = some std) (x : I) :
    (∀ (h : HandlerArgs A C → Except JsError O) (v : A),
        (std.validate x).resolve = .success v →
        (((OpaBuilderImpl.mk octx).operation.input s).handler h).execute x
          = h ⟨v, octx⟩)
    ∧ (∀ issues : List Issue,
        (std.validate x).resolve = .failed issues →
        ∀ h h2 : HandlerArgs A C → Except JsError O,
          ((((OpaBuilderImpl.mk octx).operation.input s).handler h).execute x
            = (((OpaBuilderImpl.mk octx).operation.input s).handler h2).execute x)
          ∧ ((((OpaBuilderImpl.mk octx).operation.input s).handler h).execute x
            = Except.error (JsError.plainError (stringifyIssuesPretty issues)))) := by
  constructor
  · intro h v hres
    show (OperationImpl.mk s h octx).execute x = h ⟨v, octx⟩
    rw [OperationImpl.execute_mk]
    simp [validateInput, hstd, hres]
  · intro issues hres h h2
    have key : ∀ h3 : HandlerArgs A C → Except JsError O,
        (((OpaBuilderImpl.mk octx).operation.input s).handler h3).execute x
          = Except.error (JsError.plainError (stringifyIssuesPretty issues)) := by
      intro h3
      show (OperationImpl.mk s h3 octx).execute x = _
      rw [OperationImpl.execute_mk]
      simp [validateInput, hstd, hres]
    exact ⟨(key h).trans (key h2).symm, key h⟩

/-- Witness for C1 at concrete inputs: with `goodSchema` and context 5,
input 2 validates to 3 and the handler runs; input 0 resolves to an
issue (through the asynchronous branch) and execute fails with the
serialized issue list. -/
theorem c1_validate_before_invoke_witness :
    ((((OpaBuilderImpl.mk (some 5)).operation.input goodSchema).handler
        (fun a => Except.ok (a.input + a.ctx.getD 0))).execute 2
      = Except.ok 8)
    ∧ ((((OpaBuilderImpl.mk (some 5)).operation.input goodSchema).handler
        (fun a => Except.ok (a.input + a.ctx.getD 0))).execute 0
      = Except.error (JsError.plainError (stringifyIssuesPretty [⟨"zero"⟩]))) := by
  constructor
  · have h := (c1_validate_before_invoke goodSchema (some 5) goodStd rfl 2).1
      (fun a => Except.ok (a.input + a.ctx.getD 0)) 3 rfl
    simpa using h
  · exact ((c1_validate_before_invoke goodSchema (some 5) goodStd rfl 0).2
      [⟨"zero"⟩] rfl (fun a => Except.ok (a.input + a.ctx.getD 0))
      (fun a => Except.ok (a.input + a.ctx.getD 0))).2

/-- Counterexample to C2 as stated: on the canonical Opa chain, an
invalid input makes `execute` reject with a plain `Error` whose message
is the JSON text of the issues; the failure is not of the
`ValidationError` class kind and carries no structured issue list. -/
theorem c2_counterexample :
    ((((op Unit).input badSchema).handler (fun a => Except.ok a.input)).execute 5
      = Except.error (JsError.plainError
          "[\n  \x7b\n    \"message\": \"expected string\"\n  \x7d\n]"))
    ∧ (isValidationErrorKind
        ((((op Unit).input badSchema).handler (fun a => Except.ok a.input)).execute 5)
      = false) := by
  constructor
  · rfl
  · rfl

/-- C2 as amended: for every invalid input, `execute` fails with a plain
`Error` whose message is `JSON.stringify(issues, null, 2)` — the
serialization of the adapter's full ordered issue list, every issue in
order — rather than a `ValidationError`-class failure carrying the list
structurally. -/
theorem c2_amended_serialized_issue_fidelity {I A O C : Type}
    (s : Schema I A) (octx : Option C) (std : StdProps I A)
    (hstd : s.standard = some std) (x : I) (issues : List Issue)
    (hres : (std.validate x).resolve = .failed issues)
    (h : HandlerArgs A C → Except JsError O) :
    (((OpaBuilderImpl.mk octx).operation.input s).handler h).execute x
      = Except.error (JsError.plainError (stringifyIssuesPretty issues)) := by
  show (OperationImpl.mk s h octx).execute x = _
  rw [OperationImpl.execute_mk]
  simp [validateInput, hstd, hres]

/-- Witness for the amended C2 at a concrete invalid input. -/
theorem c2_amended_serialized_issue_fidelity_witness :
    (((OpaBuilderImpl.mk (some 9)).operation.input badSchema).handler
        (fun a => Except.ok a.input)).execute 5
      = Except.error (JsError.plainError
          (stringifyIssuesPretty [⟨"expected string"⟩])) :=
  c2_amended_serialized_issue_fidelity badSchema (some 9) badStd rfl 5
    [⟨"expected string"⟩] rfl (fun a => Except.ok a.input)

/-- C3: which argument shape the handler sees on the `execute` path is
fixed by the builder chain the Operation came from, uniformly in the
call (`x` is universally quantified): every operation from
`Opa.context(c).create()` passes `\x7b input, ctx: c \x7d`, and every
operation from `Opa.create()` or the standalone `op` passes only
`\x7b input \x7d` (`ctx = none`). -/
theorem c3_binding_mode_fixed_at_creation {I A O C : Type}
    (s : Schema I A) (std : StdProps I A) (hstd : s.standard = some std) :
    (∀ (c : C) (h : HandlerArgs A C → Except JsError O) (x : I) (v : A),
        (std.validate x).resolve = .success v →
        (((Opa.context c).create.operation.input s).handler h).execute x
          = h ⟨v, some c⟩)
    ∧ (∀ (h : HandlerArgs A C → Except JsError O) (x : I) (v : A),
        (std.validate x).resolve = .success v →
        ((((Opa.create C).operation.input s).handler h).execute x = h ⟨v, none⟩)
        ∧ ((((op C).input s).handler h).execute x = h ⟨v, none⟩)) := by
  constructor
  · intro c h x v hres
    show (OperationImpl.mk s h (some c)).execute x = h ⟨v, some c⟩
    rw [OperationImpl.execute_mk]
    simp [validateInput, hstd, hres]
  · intro h x v hres
    constructor
    · show (OperationImpl.mk s h none).execute x = h ⟨v, none⟩
      rw [OperationImpl.execute_mk]
      simp [validateInput, hstd, hres]
    · show (OperationImpl.mk s h none).execute x = h ⟨v, none⟩
      rw [OperationImpl.execute_mk]
      simp [validateInput, hstd, hres]

/-- Witness for C3: the same handler observes `ctx = some 5` through the
context chain and `ctx = none` through the context-free chains, at a
concrete input. -/
theorem c3_binding_mode_fixed_at_creation_witness :
    ((((Opa.context 5).create.operation.input goodSchema).handler
        (fun a => Except.ok a.ctx)).execute 2 = Except.ok (some 5))
    ∧ ((((Opa.create Nat).operation.input goodSchema).handler
        (fun a => Except.ok a.ctx)).execute 2 = Except.ok none)
    ∧ ((((op Nat).input goodSchema).handler
        (fun a => Except.ok a.ctx)).execute 2 = Except.ok none) := by
  refine ⟨?_, ?_, ?_⟩
  · exact (c3_binding_mode_fixed_at_creation goodSchema goodStd rfl).1
      5 (fun a => Except.ok a.ctx) 2 3 rfl
  · exact ((c3_binding_mode_fixed_at_creation goodSchema goodStd rfl).2
      (fun a => Except.ok a.ctx) 2 3 rfl).1
  · exact ((c3_binding_mode_fixed_at_creation goodSchema goodStd rfl).2
      (fun a => Except.ok a.ctx) 2 3 rfl).2

/-- C4: a failure raised by the handler surfaces from `execute` on valid
input, and from a direct `handler` call, exactly as raised — the core
adds no wrapping or translation. -/
theorem c4_handler_failure_propagates {I A O C : Type}
    (s : Schema I A) (octx : Option C) (std : StdProps I A)
    (hstd : s.standard = some std) (x : I) (v : A)
    (hres : (std.validate x).resolve = .success v)
    (h : HandlerArgs A C → Except JsError O) (e : JsError)
    (he : h ⟨v, octx⟩ = .error e) :
    ((((OpaBuilderImpl.mk octx).operation.input s).handler h).execute x
      = Except.error e)
    ∧ (∀ args : HandlerArgs A C, h args = .error e →
        (((OpaBuilderImpl.mk octx).operation.input s).handler h).handler args
          = Except.error e) := by
  constructor
  · show (OperationImpl.mk s h octx).execute x = Except.error e
    rw [OperationImpl.execute_mk]
    simp [validateInput, hstd, hres, he]
  · intro args ha
    show h args = Except.error e
    exact ha

/-- Witness for C4: a handler that unconditionally raises a custom
failure; both entry points surface it unchanged. -/
theorem c4_handler_failure_propagates_witness :
    ((((OpaBuilderImpl.mk (some 5)).operation.input goodSchema).handler
        (fun _ => (Except.error (JsError.custom "boom") : Except JsError Nat))).execute 2
      = Except.error (JsError.custom "boom"))
    ∧ ((((OpaBuilderImpl.mk (some 5)).operation.input goodSchema).handler
        (fun _ => (Except.error (JsError.custom "boom") : Except JsError Nat))).handler
          ⟨3, some 5⟩
      = Except.error (JsError.custom "boom")) := by
  have h := c4_handler_failure_propagates goodSchema (some 5) goodStd rfl 2 3 rfl
    (fun _ => (Except.error (JsError.custom "boom") : Except JsError Nat))
    (JsError.custom "boom") rfl
  exact ⟨h.1, h.2 ⟨3, some 5⟩ rfl⟩

/-- C5: direct invocation `handler(args)` forwards the caller's args to
the underlying handler — the result equals the handler's own result, is
identical for every schema (so the schema's validate is never consulted
and can never fail the call), and is of the `ValidationError` kind only
if the handler's own result already is. -/
theorem c5_direct_invocation_bypasses_validation {I A O C : Type}
    (s : Schema I A) (octx : Option C)
    (h : HandlerArgs A C → Except JsError O) (args : HandlerArgs A C) :
    ((((OpaBuilderImpl.mk octx).operation.input s).handler h).handler args = h args)
    ∧ (∀ s2 : Schema I A,
        (((OpaBuilderImpl.mk octx).operation.input s2).handler h).handler args
          = (((OpaBuilderImpl.mk octx).operation.input s).handler h).handler args)
    ∧ (isValidationErrorKind
        ((((OpaBuilderImpl.mk octx).operation.input s).handler h).handler args)
      = isValidationErrorKind (h args)) :=
  ⟨rfl, fun _ => rfl, rfl⟩

/-- C6: `Opa.context(c)` yields a handle whose every `create()` call
returns a builder holding the very value `c`; the identical context
value reaches every Operation built from any of those builders, and each
`execute`-path handler invocation receives `c` itself.  Instantiating
the context type with heap references (see the witness) this is
reference semantics: a field mutation inside the referenced object
before or after construction is what a subsequent handler invocation
reads. -/
theorem c6_context_shared_by_reference {C : Type} (c : C) :
    ((Opa.context c).create = OpaBuilderImpl.mk (some c))
    ∧ (∀ {I A O : Type} (s : Schema I A)
        (h : HandlerArgs A C → Except JsError O),
        (((Opa.context c).create.operation.input s).handler h)._context = some c)
    ∧ (∀ {I A O : Type} (s : Schema I A) (std : StdProps I A),
        s.standard = some std →
        ∀ (h : HandlerArgs A C → Except JsError O) (x : I) (v : A),
          (std.validate x).resolve = .success v →
          (((Opa.context c).create.operation.input s).handler h).execute x
            = h ⟨v, some c⟩) := by
  refine ⟨rfl, fun _ _ => rfl, ?_⟩
  intro I A O s std hstd h x v hres
  show (OperationImpl.mk s h (some c)).execute x = h ⟨v, some c⟩
  rw [OperationImpl.execute_mk]
  simp [validateInput, hstd, hres]

/-- Fixture for the C6 witness: a handler whose result is a reader of a
mutable store (reference number to integer), reading the field addressed
by the context reference it was handed. -/
def hRead : HandlerArgs Nat Nat → Except JsError ((Nat → Int) → Int) :=
  fun a => Except.ok (fun store : Nat → Int => store (a.ctx.getD 0))

/-- Witness for C6: the operation is bound to reference 7; evaluating
the same invocation result against the store before a mutation and
the store after it observes the two different field values — the
operation holds the reference, not a snapshot. -/
theorem c6_context_shared_by_reference_witness :
    (((((Opa.context 7).create.operation.input goodSchema).handler hRead).execute 2).map
        (fun rd => (rd (fun r => if r = 7 then 11 else 0),
                    rd (fun r => if r = 7 then 22 else 0)))
      = Except.ok (11, 22))
    ∧ ((((Opa.context 7).create.operation.input goodSchema).handler hRead)._context
      = some 7) := by
  constructor
  · have h := (c6_context_shared_by_reference 7).2.2 goodSchema goodStd rfl hRead 2 3 rfl
    rw [h]
    rfl
  · exact (c6_context_shared_by_reference 7).2.1 goodSchema hRead

/-- C7: the `schema` property of an Operation built through any of the
three chains is the exact schema value passed to the builder's `input`
step — returned as stored, never wrapped or proxied. -/
theorem c7_schema_property_returns_original {I A O C : Type}
    (s : Schema I A) (c : C) (f : HandlerArgs A C → Except JsError O) :
    ((((Opa.context c).create.operation.input s).handler f).schema = s)
    ∧ ((((Opa.create C).operation.input s).handler f).schema = s)
    ∧ ((((op C).input s).handler f).schema = s) :=
  ⟨rfl, rfl, rfl⟩

/-- C8: builder stages are pure value constructors.  `input` returns a
new schema-bound stage determined by the schema and stored context
alone; `handler` applied twice to that same stage yields two Operations
that agree with the stage componentwise; and each Operation's `execute`
behaviour is a function of its own (schema, handler, context) triple
only — the other Operation and its handler appear nowhere in it, so
invoking one cannot affect the other or the originating stage. -/
theorem c8_builder_stages_immutable {I A O C : Type}
    (octx : Option C) (s : Schema I A)
    (f g : HandlerArgs A C → Except JsError O) :
    ((OperationBuilderImpl.mk octx).input s = OperationWithInputImpl.mk s octx)
    ∧ ((OperationWithInputImpl.mk s octx).handler f = OperationImpl.mk s f octx)
    ∧ ((OperationWithInputImpl.mk s octx).handler g = OperationImpl.mk s g octx)
    ∧ (∀ x : I, (OperationImpl.mk s f octx).execute x
        = match validateInput s x with
          | .error e => .error e
          | .ok v => f ⟨v, octx⟩)
    ∧ (∀ x : I, (OperationImpl.mk s g octx).execute x
        = match validateInput s x with
          | .error e => .error e
          | .ok v => g ⟨v, octx⟩) :=
  ⟨rfl, rfl, rfl, fun x => OperationImpl.execute_mk s f octx x,
    fun x => OperationImpl.execute_mk s g octx x⟩

/-- Read a property of an object: the value at its (first) occurrence of
the key. -/
def getProp (o : JsObj) (k : String) : Option CJSVal :=
  (o.find? (fun p => p.1 = k)).map Prod.snd

/-- The value at the last occurrence of a key — what a sequence of JS
property writes in list order leaves behind for that key. -/
def lastVal (o : JsObj) (k : String) : Option CJSVal :=
  (o.reverse.find? (fun p => p.1 = k)).map Prod.snd

/-- Left-biased choice on optional property values. -/
def orO (a b : Option CJSVal) : Option CJSVal :=
  match a with
  | some v => some v
  | none => b

/-- Reading one step of an object: the head property answers its own
key, the tail answers the rest. -/
theorem getProp_cons (p : String × CJSVal) (rest : JsObj) (k : String) :
    getProp (p :: rest) k = if p.1 = k then some p.2 else getProp rest k := by
  by_cases hpk : p.1 = k
  · rw [getProp, List.find?_cons_of_pos _ (by simpa using hpk), if_pos hpk]
    rfl
  · rw [getProp, List.find?_cons_of_neg _ (by simpa using hpk), if_neg hpk]
    rfl

/-- Reading after a single property write: the written key yields the
written value, any other key is unaffected. -/
theorem getProp_setProp (o : JsObj) (a : String) (b : CJSVal) (k : String) :
    getProp (setProp o a b) k = if a = k then some b else getProp o k := by
  induction o with
  | nil =>
    rw [show setProp [] a b = [(a, b)] from rfl, getProp_cons]
  | cons p rest ih =>
    by_cases hpa : p.1 = a
    · rw [show setProp (p :: rest) a b = (a, b) :: rest from by simp [setProp, hpa],
        getProp_cons, getProp_cons]
      by_cases hak : a = k
      · simp [hak]
      · have hpk : ¬ p.1 = k := by rw [hpa]; exact hak
        simp [hak, hpk]
    · rw [show setProp (p :: rest) a b = p :: setProp rest a b from by simp [setProp, hpa],
        getProp_cons, getProp_cons, ih]
      by_cases hpk : p.1 = k
      · have hak : ¬ a = k := by
          intro hc
          exact hpa (by rw [hpk, hc])
        simp [hpk, hak]
      · simp [hpk]

/-- Peeling one write off a last-occurrence lookup. -/
theorem lastVal_cons (p : String × CJSVal) (rest : JsObj) (k : String) :
    lastVal (p :: rest) k
      = orO (lastVal rest k) (if p.1 = k then some p.2 else none) := by
  have hrev : (p :: rest).reverse = rest.reverse ++ [p] := by simp
  rw [lastVal, hrev, List.find?_append]
  cases h : rest.reverse.find? (fun q => q.1 = k) with
  | none =>
    by_cases hpk : p.1 = k <;> simp [lastVal, orO, h, List.find?, hpk]
  | some q =>
    simp [lastVal, orO, h]

/-- Reading the result of copying `src` into `o`: the last write of the
key in `src` wins, else the key's value in `o` shows through. -/
theorem getProp_assignInto (src : JsObj) (o : JsObj) (k : String) :
    getProp (assignInto o src) k = orO (lastVal src k) (getProp o k) := by
  induction src generalizing o with
  | nil =>
    simp [assignInto, lastVal, orO, List.find?]
  | cons p rest ih =>
    have step : assignInto o (p :: rest) = assignInto (setProp o p.1 p.2) rest := rfl
    rw [step, ih, getProp_setProp, lastVal_cons]
    cases hl : lastVal rest k with
    | some v => simp [orO]
    | none =>
      by_cases hpk : p.1 = k <;> simp [orO, hpk]

/-- Reading the object `Object.assign(\x7b\x7d, s1, s2)` builds: a key set by
the second source wins, else the first source's last write for it. -/
theorem getProp_objectAssign2 (h : JsHeap) (s1 s2 : CJSVal) (k : String) :
    getProp (objectAssign2 h s1 s2) k
      = orO (lastVal (assignSourceProps h s2) k)
            (lastVal (assignSourceProps h s1) k) := by
  rw [objectAssign2, getProp_assignInto, getProp_assignInto]
  cases h2 : lastVal (assignSourceProps h s2) k with
  | some v => simp [orO]
  | none =>
    cases h1 : lastVal (assignSourceProps h s1) k with
    | some v => simp [orO, getProp, List.find?]
    | none => simp [orO, getProp, List.find?]

/-- Fixture: a schema object with no `~standard` property. -/
def rawSchema : Schema Nat Nat :=
  ⟨none⟩

/-- Fixture heap: one allocated object, reference 0. -/
def heap0 : JsHeap :=
  ⟨[[("a", CJSVal.numV 1)]]⟩

/-- Fixture heap: two allocated objects with one overlapping key. -/
def heap1 : JsHeap :=
  ⟨[[("a", CJSVal.numV 1), ("b", CJSVal.numV 2)],
    [("b", CJSVal.numV 9), ("c", CJSVal.numV 3)]]⟩

/-- C9: for both `withContext` operation shapes, when the supplied
schema object lacks a `~standard` property the internal validation step
returns the raw input unchanged and never fails, so `execute` coincides
with the non-validating `handler` entry point on every input, heap, and
additional context. -/
theorem c9_missing_standard_skips_validation {I O : Type}
    (schema : Schema I I) (hns : schema.standard = none) :
    (∀ input : I, ctxValidateInput schema input = Except.ok input)
    ∧ (∀ (provided : CJSVal) (userH : CtxParams I → Except JsError O)
        (h : JsHeap) (input : I) (additional : CJSVal),
        ctxOpExecute provided userH schema h input additional
          = ctxOpHandler provided userH schema h input additional)
    ∧ (∀ (userH : CtxParams I → Except JsError O) (input : I) (cv : CJSVal),
        typedCtxOpExecute userH schema input cv
          = typedCtxOpHandler userH schema input cv) := by
  have hval : ∀ input : I, ctxValidateInput schema input = Except.ok input := by
    intro input
    simp [ctxValidateInput, hns]
  refine ⟨hval, ?_, ?_⟩
  · intro provided userH h input additional
    simp [ctxOpExecute, ctxOpHandler, hval]
  · intro userH input cv
    simp [typedCtxOpExecute, typedCtxOpHandler, hval]

/-- Witness for C9 at concrete values: `rawSchema` has no `~standard`,
and both executes equal their direct-handler counterparts with the raw
input passed through. -/
theorem c9_missing_standard_skips_validation_witness :
    (ctxValidateInput rawSchema 5 = Except.ok 5)
    ∧ (ctxOpExecute (CJSVal.objRef 0) (fun p => Except.ok p.ctx) rawSchema heap0 5
        CJSVal.undef
      = ctxOpHandler (CJSVal.objRef 0) (fun p => Except.ok p.ctx) rawSchema heap0 5
        CJSVal.undef)
    ∧ (typedCtxOpExecute (fun p => Except.ok p.ctx) rawSchema 5 CJSVal.nullV
      = typedCtxOpHandler (fun p => Except.ok p.ctx) rawSchema 5 CJSVal.nullV) := by
  have h := c9_missing_standard_skips_validation (O := CJSVal) rawSchema rfl
  exact ⟨h.1 5, h.2.1 (CJSVal.objRef 0) (fun p => Except.ok p.ctx) heap0 5 CJSVal.undef,
    h.2.2 (fun p => Except.ok p.ctx) 5 CJSVal.nullV⟩

/-- Counterexample to C10 as stated: `additionalCtx = 0` is supplied
(not absent), yet — because the source branches on JS truthiness, not
presence — the underlying handler receives the provided context
reference itself and no fresh merged object is allocated, on both the
`handler` and the `execute` paths. -/
theorem c10_counterexample :
    (ctxOpHandler (CJSVal.objRef 0) (fun p => Except.ok p.ctx) rawSchema heap0 42
        (CJSVal.numV 0)
      = (heap0, Except.ok (CJSVal.objRef 0)))
    ∧ (ctxOpExecute (CJSVal.objRef 0) (fun p => Except.ok p.ctx) rawSchema heap0 42
        (CJSVal.numV 0)
      = (heap0, Except.ok (CJSVal.objRef 0)))
    ∧ ((computeMergedCtx heap0 (CJSVal.objRef 0) (CJSVal.numV 0)).1.objs.length
      = heap0.objs.length) :=
  ⟨rfl, rfl, rfl⟩

/-- C10 as amended: the merge is decided by JS truthiness of
`additionalCtx`, not by its presence.  A truthy `additionalCtx` hands
the user handler a freshly allocated object (its reference is the next
free one, distinct from every existing reference) whose properties are
those of the provided context overridden by those of `additionalCtx`;
a falsy `additionalCtx` (absent, undefined, null, false, 0, empty
string) hands it the provided context value itself, with no allocation.
The same holds on the `execute` path once validation succeeds. -/
theorem c10_amended_truthiness_decides_merge {I O : Type}
    (provided : CJSVal) (userH : CtxParams I → Except JsError O)
    (schema : Schema I I) (h : JsHeap) (input : I) (additional : CJSVal) :
    (additional.truthy = true →
      (ctxOpHandler provided userH schema h input additional
        = (⟨h.objs ++ [objectAssign2 h provided additional]⟩,
            userH ⟨input, schema, CJSVal.objRef h.objs.length⟩))
      ∧ (∀ r : Nat, r < h.objs.length →
          CJSVal.objRef h.objs.length ≠ CJSVal.objRef r)
      ∧ (∀ k : String,
          getProp (objectAssign2 h provided additional) k
            = orO (lastVal (assignSourceProps h additional) k)
                  (lastVal (assignSourceProps h provided) k)))
    ∧ (additional.truthy = false →
        ctxOpHandler provided userH schema h input additional
          = (h, userH ⟨input, schema, provided⟩))
    ∧ (∀ v : I, ctxValidateInput schema input = Except.ok v →
        (additional.truthy = true →
          ctxOpExecute provided userH schema h input additional
            = (⟨h.objs ++ [objectAssign2 h provided additional]⟩,
                userH ⟨v, schema, CJSVal.objRef h.objs.length⟩))
        ∧ (additional.truthy = false →
          ctxOpExecute provided userH schema h input additional
            = (h, userH ⟨v, schema, provided⟩))) := by
  refine ⟨?_, ?_, ?_⟩
  · intro htr
    refine ⟨?_, ?_, ?_⟩
    · simp [ctxOpHandler, computeMergedCtx, JsHeap.alloc, htr]
    · intro r hr heq
      injection heq with h1
      omega
    · intro k
      exact getProp_objectAssign2 h provided additional k
  · intro hfal
    simp [ctxOpHandler, computeMergedCtx, hfal]
  · intro v hv
    constructor
    · intro htr
      simp [ctxOpExecute, hv, computeMergedCtx, JsHeap.alloc, htr]
    · intro hfal
      simp [ctxOpExecute, hv, computeMergedCtx, hfal]

/-- Witness for the amended C10: with the two-object heap, a truthy
additional context yields the fresh reference 2 holding the merged
properties (the shared key `b` taken from the additional context), and
a falsy (absent) one yields exactly the provided reference 0 with the
heap untouched. -/
theorem c10_amended_truthiness_decides_merge_witness :
    (ctxOpHandler (CJSVal.objRef 0) (fun p => Except.ok p.ctx) rawSchema heap1 7
        (CJSVal.objRef 1)
      = (⟨heap1.objs ++ [objectAssign2 heap1 (CJSVal.objRef 0) (CJSVal.objRef 1)]⟩,
          Except.ok (CJSVal.objRef 2)))
    ∧ (objectAssign2 heap1 (CJSVal.objRef 0) (CJSVal.objRef 1)
      = [("a", CJSVal.numV 1), ("b", CJSVal.numV 9), ("c", CJSVal.numV 3)])
    ∧ (ctxOpHandler (CJSVal.objRef 0) (fun p => Except.ok p.ctx) rawSchema heap1 7
        CJSVal.undef
      = (heap1, Except.ok (CJSVal.objRef 0)))
    ∧ (ctxOpExecute (CJSVal.objRef 0) (fun p => Except.ok p.ctx) rawSchema heap1 7
        CJSVal.undef
      = (heap1, Except.ok (CJSVal.objRef 0))) := by
  have ht := c10_amended_truthiness_decides_merge (CJSVal.objRef 0)
    (fun p => (Except.ok p.ctx : Except JsError CJSVal)) rawSchema heap1 7
    (CJSVal.objRef 1)
  have hf := c10_amended_truthiness_decides_merge (CJSVal.objRef 0)
    (fun p => (Except.ok p.ctx : Except JsError CJSVal)) rawSchema heap1 7
    CJSVal.undef
  refine ⟨?_, by decide, hf.2.1 rfl, (hf.2.2 7 rfl).2 rfl⟩
  have h1 := (ht.1 rfl).1
  simpa [heap1] using h1
